import Mathlib

/-!
Verification of the uhabit offline-capable statistics engine
(`src/lib/presenters/statisticsPresenter.ts`).

The presenter is embedded shallowly: JS `Date` values become `Int`
(milliseconds since epoch), the svelte store becomes an explicit
`StatisticsState` record threaded through each operation, the async
remote gateway and local cache become an explicit environment record
holding the outcome of each external call, and each external call is
also recorded in an event trace so that ordering properties
("clearAll happens before any write") can be stated.

The aggregation helpers imported from `$lib/stats`, the cache factory
`$lib/cache/statsCache` and the api factory `$lib/api/statsApi` are not
part of the sources under verification; the spec describes them as pure
functions / plain async collaborators, so they are modelled as
parameters (`StatsDeps`) and as environment outcomes (`SyncEnv`).
-/

namespace UHabit

abbrev UserId := String

/-- The `Scope` type of `$lib/stats/types`: `daily | weekly | monthly`. -/
inductive Scope where
  | daily
  | weekly
  | monthly
deriving DecidableEq, Repr

/-- Modelled from the spec: a habit record; only the identity and the
owning-user identifier are read by the presenter (`freshHabits[0].userId`). -/
structure Habit where
  id : String
  userId : UserId
deriving DecidableEq, Repr

/-- Modelled from the spec: a completion record referencing a habit and a
calendar date; the presenter only passes completions through. -/
structure HabitCompletion where
  habitId : String
  date : Int
  completed : Bool
deriving DecidableEq, Repr

/-- An inclusive `[from, to]` date range. -/
structure DateRange where
  fromDate : Int
  toDate : Int
deriving DecidableEq, Repr

/-- Result of `getPeriodRanges`: the current and the previous period. -/
structure PeriodRanges where
  current : DateRange
  previous : DateRange
deriving DecidableEq, Repr

/-- Result of `computeCompletionRate`: rate plus raw counts. -/
structure RateResult where
  rate : Rat
  completed : Nat
  total : Nat
deriving DecidableEq, Repr

/-- Result of `computeOverallStreak`. -/
structure StreakResult where
  currentStreak : Nat
  longestStreak : Nat
deriving DecidableEq, Repr

/-- One heatmap cell: the normalized completion intensity of one day. -/
structure HeatCell where
  date : Int
  intensity : Rat
deriving DecidableEq, Repr

/-- Trend entry of one habit: rate over the current range and delta versus
the previous range. -/
structure HabitTrend where
  habitId : String
  rate : Rat
  delta : Rat
deriving DecidableEq, Repr

/-- Modelled from the spec: structured insight highlights. -/
structure Insights where
  mostImproved : Option String
  atRisk : Option String
deriving DecidableEq, Repr

/-- Modelled from the spec: one activity-feed item derived from trends. -/
structure ActivityItem where
  habitId : String
  label : String
deriving DecidableEq, Repr

/-- The `PeriodStats` record built inside `computeStatistics`. -/
structure PeriodStats where
  rangeLabel : String
  completionRate : Rat
  bestDay : String
  completions : Nat
  streak : Nat
  longestStreak : Nat
deriving DecidableEq, Repr

/-- The `Snapshot` record built inside `computeStatistics`. -/
structure Snapshot where
  currentStreak : Nat
  overallCompletion : Rat
  weeklyDelta : Rat
  mostConsistent : Option HabitTrend
  needsAttention : Option HabitTrend
deriving DecidableEq, Repr

/-- The `ComputedStatistics` record: the wholesale-replaced aggregate set. -/
structure ComputedStatistics where
  periodStats : PeriodStats
  trends : List HabitTrend
  heatmap : List HeatCell
  snapshot : Snapshot
  insights : Insights
  activity : List ActivityItem
deriving DecidableEq, Repr

/-- `StatisticsState`, the single observable state object of the presenter. -/
structure StatisticsState where
  scope : Scope
  selectedDate : Int
  isLoading : Bool
  isSyncing : Bool
  isOffline : Bool
  error : Option String
  lastSync : Option Int
  periodStats : Option PeriodStats
  trends : List HabitTrend
  heatmap : List HeatCell
  snapshot : Option Snapshot
  insights : Option Insights
  activity : List ActivityItem
deriving DecidableEq, Repr

/-- The metadata record written by `sync`
(`{ lastHabitsSync, lastCompletionsSync, version, userId }`). -/
structure SyncMetadata where
  lastHabitsSync : Option Int
  lastCompletionsSync : Option Int
  version : Nat
  userId : Option UserId
deriving DecidableEq, Repr

/-- Modelled from the spec: the contents of the Local Store — habit rows,
completion rows and a metadata record. -/
structure CacheState where
  habits : List Habit
  completions : List HabitCompletion
  metadata : Option SyncMetadata
deriving DecidableEq, Repr

/-- `clearAll` wipes habits, completions and metadata. -/
def CacheState.cleared : CacheState :=
  { habits := [], completions := [], metadata := none }

/-- Modelled from the spec: `addCompletions` is append-or-upsert keyed by
(habit, date). -/
def upsertCompletions (old incoming : List HabitCompletion) : List HabitCompletion :=
  old.filter (fun c => !(incoming.any (fun n => n.habitId == c.habitId && n.date == c.date)))
    ++ incoming

/-- Modelled from the spec: the pure aggregation functions of `$lib/stats`
and the pure helpers of `statisticsHelpers`, taken as parameters — their
source is outside the presenter under verification; the spec specifies
them as pure, deterministic and total. -/
structure StatsDeps where
  getPeriodRanges : Scope → Int → PeriodRanges
  getHeatmapRange : Scope → Int → DateRange
  computeCompletionRate : List Habit → List HabitCompletion → DateRange → RateResult
  computeOverallStreak : List Habit → List HabitCompletion → Int → StreakResult
  computeHeatmap : List Habit → List HabitCompletion → DateRange → Scope → List HeatCell
  computeTrends : List Habit → List HabitCompletion → Scope → Int → List HabitTrend
  computeInsights : List Habit → List HabitCompletion → DateRange → Int → Insights
  findMostConsistent : List HabitTrend → Option HabitTrend
  findNeedsAttention : List HabitTrend → Option HabitTrend
  findBestDayOfWeek : List Habit → List HabitCompletion → DateRange → String
  findBestDate : List Habit → List HabitCompletion → DateRange → String
  formatRangeLabel : Scope → Int → String
  buildActivity : List HabitTrend → List ActivityItem
  getDateKey : Scope → Int → String

/-- The spread `{ ...s, ...computed }` of a freshly computed aggregate set
into the state: all six statistics fields replaced wholesale. -/
def applyComputed (c : ComputedStatistics) (s : StatisticsState) : StatisticsState :=
  { s with
    periodStats := some c.periodStats
    trends := c.trends
    heatmap := c.heatmap
    snapshot := some c.snapshot
    insights := some c.insights
    activity := c.activity }

/-- `computeStatistics(scope, date)` of the presenter: on an empty habit
list it publishes zeroed aggregates and returns `null`; otherwise it runs
one reduction pass over the in-memory data and publishes the result. -/
def computeStatistics (deps : StatsDeps) (habits : List Habit)
    (completions : List HabitCompletion) (scope : Scope) (date : Int)
    (s : StatisticsState) : Option ComputedStatistics × StatisticsState :=
  if habits.length == 0 then
    (none,
      { s with
        isLoading := false
        periodStats := none
        trends := []
        heatmap := []
        snapshot := none
        insights := none
        activity := [] })
  else
    let ranges := deps.getPeriodRanges scope date
    let heatmapRange := deps.getHeatmapRange scope date
    let currentRate := deps.computeCompletionRate habits completions ranges.current
    let previousRate := deps.computeCompletionRate habits completions ranges.previous
    let overallStreak := deps.computeOverallStreak habits completions date
    let heatmap := deps.computeHeatmap habits completions heatmapRange scope
    let trends := deps.computeTrends habits completions scope date
    let insights := deps.computeInsights habits completions heatmapRange date
    let periodStats : PeriodStats :=
      { rangeLabel := deps.formatRangeLabel scope date
        completionRate := currentRate.rate
        bestDay :=
          if scope == Scope.daily then
            deps.findBestDayOfWeek habits completions heatmapRange
          else
            deps.findBestDate habits completions ranges.current
        completions := currentRate.completed
        streak := overallStreak.currentStreak
        longestStreak := overallStreak.longestStreak }
    let snapshot : Snapshot :=
      { currentStreak := overallStreak.currentStreak
        overallCompletion := currentRate.rate
        weeklyDelta := currentRate.rate - previousRate.rate
        mostConsistent := deps.findMostConsistent trends
        needsAttention := deps.findNeedsAttention trends }
    let computed : ComputedStatistics :=
      { periodStats := periodStats
        trends := trends
        heatmap := heatmap
        snapshot := snapshot
        insights := insights
        activity := deps.buildActivity trends }
    (some computed, applyComputed computed { s with isLoading := false })

/-- Typed gateway failures (spec §4.2 / §7). -/
inductive GatewayError where
  | unauthenticated
  | unreachable
  | serverError
deriving DecidableEq, Repr

/-- One recorded external call of a sync / intent: remote gateway calls,
Local Store calls, and the best-effort server-cache mirror. The mirror
event records the outcome of the mirror promise so that its swallowing
can be stated. -/
inductive Event where
  | getMetadataEv
  | fetchHabitsEv
  | fetchCompletionsEv (since : Int)
  | clearAllEv
  | setHabitsEv (hs : List Habit)
  | addCompletionsEv (cs : List HabitCompletion)
  | setMetadataEv (m : SyncMetadata)
  | getHabitsEv
  | getCompletionsEv
  | setServerCacheEv (scope : Scope) (dateKey : String) (validUntil : Int) (ok : Bool)
deriving DecidableEq, Repr

/-- The environment one `sync()` invocation runs in: the outcome of each
remote call, the wall clock (all `new Date()` calls of one invocation
collapsed to one instant), and the `STATS_CACHE.HISTORY_DAYS` constant. -/
structure SyncEnv where
  fetchHabitsR : Except GatewayError (List Habit)
  fetchCompletionsR : Int → Except GatewayError (List HabitCompletion)
  mirrorOk : Bool
  now : Int
  historyDays : Int

/-- The full presenter state: the published `StatisticsState`, the
in-memory `habits` / `completions` closure variables, and the Local
Store contents (`none` while no cache is open). -/
structure PState where
  ui : StatisticsState
  habits : List Habit
  completions : List HabitCompletion
  cache : Option CacheState
deriving DecidableEq, Repr

/-- One millisecond-count hour, the validity window of the server cache. -/
def hourMs : Int := 3600000

/-- One millisecond-count day. -/
def dayMs : Int := 86400000

/-- JS truthiness of a nullable string (`null`, `undefined` and `""` are
falsy). -/
def optTruthy : Option String → Bool
  | some s => s != ""
  | none => false

/-- `freshHabits.length > 0 ? freshHabits[0].userId : null`. -/
def currentUserIdOf : List Habit → Option UserId
  | [] => none
  | h :: _ => some h.userId

/-- `getFetchFromDate`: the earlier of the heatmap lookback start and
`now - HISTORY_DAYS` days. -/
def getFetchFromDate (now historyDays : Int) (heatmapRange : DateRange) : Int :=
  let historyStart := now - historyDays * dayMs
  if heatmapRange.fromDate < historyStart then heatmapRange.fromDate else historyStart

/-- The cache-trust check of `sync` (lines 183–192): clear when the cache
has data but no owning user, when the owning users mismatch, or when the
fresh user has no habits while the cache has data. -/
def clearDecision (metadata : Option SyncMetadata) (currentUserId : Option UserId) : Bool :=
  let cacheHasData := (metadata.bind SyncMetadata.lastHabitsSync).isSome
  let cacheHasNoUserId := cacheHasData && !(optTruthy (metadata.bind SyncMetadata.userId))
  let userIdMismatch :=
    optTruthy (metadata.bind SyncMetadata.userId) && optTruthy currentUserId
      && (metadata.bind SyncMetadata.userId) != currentUserId
  let suspiciousCache := !(optTruthy currentUserId) && cacheHasData
  cacheHasNoUserId || userIdMismatch || suspiciousCache

/-- The offline-fallback guard of `sync` (line 223):
`cache && metadata?.lastHabitsSync && cachedUserId`. -/
def fallbackAllowed (cacheOpen : Bool) (metadata : Option SyncMetadata) : Bool :=
  cacheOpen && (metadata.bind SyncMetadata.lastHabitsSync).isSome
    && optTruthy (metadata.bind SyncMetadata.userId)

/-- The `fetchFrom` date one sync uses, computed from the scope/date read
right after `isSyncing` is raised. -/
def syncFetchFrom (deps : StatsDeps) (env : SyncEnv) (p : PState) : Int :=
  getFetchFromDate env.now env.historyDays
    (deps.getHeatmapRange p.ui.scope p.ui.selectedDate)

/-- The message published by the outer catch of `sync`. -/
def syncErrorMsg : String := "Failed to load statistics. Please try again."

/-- The state transition of the outer catch of `sync`. -/
def syncCatch (s : StatisticsState) : StatisticsState :=
  { s with isLoading := false, isSyncing := false, error := some syncErrorMsg }

/-- The shared tail of a sync that reached a usable data source
(lines 233–238): recompute, best-effort mirror when a result was
computed, then clear `isSyncing` and stamp `lastSync`. -/
def finishSync (deps : StatsDeps) (env : SyncEnv) (cur : StatisticsState)
    (habits : List Habit) (completions : List HabitCompletion)
    (cache : Option CacheState) (s : StatisticsState) (tr : List Event) :
    PState × List Event :=
  let r := computeStatistics deps habits completions cur.scope cur.selectedDate s
  let tr2 := tr ++
    (if r.fst.isSome then
      [Event.setServerCacheEv cur.scope (deps.getDateKey cur.scope cur.selectedDate)
        (env.now + hourMs) env.mirrorOk]
    else [])
  let s4 := { r.snd with isSyncing := false, lastSync := some env.now }
  ({ ui := s4, habits := habits, completions := completions, cache := cache }, tr2)

/-- The branch of `sync` after `fetchHabits` succeeded (lines 180–219),
parameterized by the outcome of the `fetchCompletions` call. `s1` is the
state after the initial `isSyncing := true` update, `metadata` the value
read before the inner try. -/
def syncFetchOk (deps : StatsDeps) (env : SyncEnv) (p : PState)
    (s1 : StatisticsState) (metadata : Option SyncMetadata) (tr1 : List Event)
    (freshHabits : List Habit) :
    Except GatewayError (List HabitCompletion) → PState × List Event
  | Except.ok freshCompletions =>
    let currentUserId := currentUserIdOf freshHabits
    let doClear := p.cache.isSome && clearDecision metadata currentUserId
    let cache1 := if doClear then p.cache.map (fun _ => CacheState.cleared) else p.cache
    let tr2 := tr1 ++ (if doClear then [Event.clearAllEv] else [])
    let tr3 := tr2 ++ [Event.fetchCompletionsEv (syncFetchFrom deps env p)]
    let meta : SyncMetadata :=
      { lastHabitsSync := some env.now
        lastCompletionsSync := some env.now
        version := 1
        userId := currentUserId }
    let cache2 := cache1.map (fun c =>
      { c with
        habits := freshHabits
        completions := upsertCompletions c.completions freshCompletions
        metadata := some meta })
    let tr4 := tr3 ++
      (if cache1.isSome then
        [Event.setHabitsEv freshHabits, Event.addCompletionsEv freshCompletions,
          Event.setMetadataEv meta]
      else [])
    let s2 := { s1 with isOffline := false }
    finishSync deps env s1 freshHabits freshCompletions cache2 s2 tr4
  | Except.error _ =>
    let currentUserId := currentUserIdOf freshHabits
    let doClear := p.cache.isSome && clearDecision metadata currentUserId
    let cache1 := if doClear then p.cache.map (fun _ => CacheState.cleared) else p.cache
    let tr2 := tr1 ++ (if doClear then [Event.clearAllEv] else [])
    let tr3 := tr2 ++ [Event.fetchCompletionsEv (syncFetchFrom deps env p)]
    if fallbackAllowed cache1.isSome metadata then
      let ch := (cache1.map CacheState.habits).getD []
      let cc := (cache1.map CacheState.completions).getD []
      let tr4 := tr3 ++ [Event.getHabitsEv, Event.getCompletionsEv]
      let s2 := { s1 with isOffline := true }
      finishSync deps env s1 ch cc cache1 s2 tr4
    else
      ({ ui := syncCatch s1, habits := freshHabits, completions := p.completions,
         cache := cache1 }, tr3)

/-- The body of `sync`, parameterized by the outcome of `fetchHabits`.
The inner catch of the fetch-habits failure reads the cache as it was at
entry (nothing was cleared yet on this path). -/
def syncCore (deps : StatsDeps) (env : SyncEnv) (p : PState)
    (s1 : StatisticsState) (metadata : Option SyncMetadata) (tr0 : List Event) :
    Except GatewayError (List Habit) → PState × List Event
  | Except.ok freshHabits =>
    syncFetchOk deps env p s1 metadata (tr0 ++ [Event.fetchHabitsEv]) freshHabits
      (env.fetchCompletionsR (syncFetchFrom deps env p))
  | Except.error _ =>
    let tr1 := tr0 ++ [Event.fetchHabitsEv]
    if fallbackAllowed p.cache.isSome metadata then
      let ch := (p.cache.map CacheState.habits).getD []
      let cc := (p.cache.map CacheState.completions).getD []
      let tr2 := tr1 ++ [Event.getHabitsEv, Event.getCompletionsEv]
      let s2 := { s1 with isOffline := true }
      finishSync deps env s1 ch cc p.cache s2 tr2
    else
      ({ ui := syncCatch s1, habits := p.habits, completions := p.completions,
         cache := p.cache }, tr1)

/-- `sync()` of the presenter as one deterministic transition: raise
`isSyncing`, clear the error, read metadata, then run the fetch /
cache-trust / fallback / recompute pipeline, returning the new presenter
state together with the trace of external calls. -/
def sync (deps : StatsDeps) (env : SyncEnv) (p : PState) : PState × List Event :=
  let s1 := { p.ui with isSyncing := true, error := none }
  let metadata := p.cache.bind CacheState.metadata
  let tr0 : List Event := if p.cache.isSome then [Event.getMetadataEv] else []
  syncCore deps env p s1 metadata tr0 env.fetchHabitsR

/-- `refresh()` simply awaits `sync()`. -/
def refresh (deps : StatsDeps) (env : SyncEnv) (p : PState) : PState × List Event :=
  sync deps env p

/-- `setScope(scope)`: store the new scope, raise `isLoading`, recompute
from the in-memory data. No external calls are made. -/
def setScope (deps : StatsDeps) (scope : Scope) (p : PState) : PState × List Event :=
  let s1 := { p.ui with scope := scope, isLoading := true }
  let r := computeStatistics deps p.habits p.completions scope s1.selectedDate s1
  ({ p with ui := r.snd }, [])

/-- `setSelectedDate(date)`: store the new date, raise `isLoading`,
recompute from the in-memory data. No external calls are made. -/
def setSelectedDate (deps : StatsDeps) (date : Int) (p : PState) : PState × List Event :=
  let s1 := { p.ui with selectedDate := date, isLoading := true }
  let r := computeStatistics deps p.habits p.completions s1.scope date s1
  ({ p with ui := r.snd }, [])

/-- Is this event a write into the Local Store? -/
def isWriteEv (e : Event) : Bool :=
  match e with
  | Event.setHabitsEv _ => true
  | Event.addCompletionsEv _ => true
  | Event.setMetadataEv _ => true
  | Event.getMetadataEv => false
  | Event.fetchHabitsEv => false
  | Event.fetchCompletionsEv _ => false
  | Event.clearAllEv => false
  | Event.getHabitsEv => false
  | Event.getCompletionsEv => false
  | Event.setServerCacheEv _ _ _ _ => false

/-- Is this event `clearAll` or a write into the Local Store? -/
def isClearOrWrite (e : Event) : Bool :=
  match e with
  | Event.clearAllEv => true
  | Event.setHabitsEv _ => true
  | Event.addCompletionsEv _ => true
  | Event.setMetadataEv _ => true
  | Event.getMetadataEv => false
  | Event.fetchHabitsEv => false
  | Event.fetchCompletionsEv _ => false
  | Event.getHabitsEv => false
  | Event.getCompletionsEv => false
  | Event.setServerCacheEv _ _ _ _ => false

/-- The first `clearAll`-or-write event of a trace; `clearAll` happened
before any data was written exactly when this is `some clearAllEv`. -/
def firstClearOrWrite (tr : List Event) : Option Event :=
  tr.find? isClearOrWrite

/-- The cache-trust clearing condition as the claim states it: prior sync
with no owning-user identifier, or both owning-user identifiers present
and different, or an empty fetched habit list together with a prior
sync. -/
def specClearCond (metadata : Option SyncMetadata) (fresh : List Habit) : Bool :=
  let priorSync := (metadata.bind SyncMetadata.lastHabitsSync).isSome
  let mUid := metadata.bind SyncMetadata.userId
  let cUid := currentUserIdOf fresh
  (priorSync && mUid.isNone) || (mUid.isSome && cUid.isSome && mUid != cUid)
    || (fresh.isEmpty && priorSync)

/-- Characterization of the runs of `sync` that end in the outer catch
(no usable data source): a remote fetch failed and the offline-fallback
guard rejected the cache. -/
def syncTotalFailure (deps : StatsDeps) (env : SyncEnv) (p : PState) : Bool :=
  let metadata := p.cache.bind CacheState.metadata
  let canFallback := fallbackAllowed p.cache.isSome metadata
  match env.fetchHabitsR with
  | Except.error _ => !canFallback
  | Except.ok _ =>
    match env.fetchCompletionsR (syncFetchFrom deps env p) with
    | Except.error _ => !canFallback
    | Except.ok _ => false

/-! ### Concrete fixtures used by witnesses and counterexamples -/

/-- A concrete instantiation of the aggregation helpers. -/
def deps0 : StatsDeps :=
  { getPeriodRanges := fun _ d =>
      { current := { fromDate := d, toDate := d }
        previous := { fromDate := d - dayMs, toDate := d - dayMs } }
    getHeatmapRange := fun _ d => { fromDate := d - 6 * dayMs, toDate := d }
    computeCompletionRate := fun _ cs _ => { rate := 1, completed := cs.length, total := cs.length }
    computeOverallStreak := fun _ _ _ => { currentStreak := 2, longestStreak := 3 }
    computeHeatmap := fun _ _ _ _ => [{ date := 0, intensity := 1 }]
    computeTrends := fun hs _ _ _ => hs.map (fun h => { habitId := h.id, rate := 1, delta := 0 })
    computeInsights := fun _ _ _ _ => { mostImproved := none, atRisk := none }
    findMostConsistent := fun ts => ts.head?
    findNeedsAttention := fun ts => ts.head?
    findBestDayOfWeek := fun _ _ _ => "Mon"
    findBestDate := fun _ _ _ => "2024-01-01"
    formatRangeLabel := fun _ _ => "label"
    buildActivity := fun ts => ts.map (fun t => { habitId := t.habitId, label := "done" })
    getDateKey := fun _ d => toString d }

def habitA : Habit := { id := "h1", userId := "A" }

def habitB : Habit := { id := "h2", userId := "B" }

def comp1 : HabitCompletion := { habitId := "h1", date := 0, completed := true }

def metaA : SyncMetadata :=
  { lastHabitsSync := some 100, lastCompletionsSync := some 100, version := 1,
    userId := some "A" }

def cacheA : CacheState :=
  { habits := [habitA], completions := [comp1], metadata := some metaA }

def ui0 : StatisticsState :=
  { scope := Scope.daily, selectedDate := 0, isLoading := true, isSyncing := false,
    isOffline := false, error := none, lastSync := none, periodStats := none,
    trends := [], heatmap := [], snapshot := none, insights := none, activity := [] }

/-- Presenter state with the data of user A cached. -/
def p0 : PState := { ui := ui0, habits := [habitA], completions := [comp1], cache := some cacheA }

/-- Presenter state with no cache open. -/
def pNoCache : PState := { ui := ui0, habits := [], completions := [], cache := none }

/-- Environment: fresh data of user B fetched successfully. -/
def envOkB : SyncEnv :=
  { fetchHabitsR := Except.ok [habitB]
    fetchCompletionsR := fun _ => Except.ok [comp1]
    mirrorOk := true
    now := 1000
    historyDays := 90 }

/-- Environment: both remote fetches fail. -/
def envFail : SyncEnv :=
  { fetchHabitsR := Except.error GatewayError.unreachable
    fetchCompletionsR := fun _ => Except.error GatewayError.unreachable
    mirrorOk := true
    now := 1000
    historyDays := 90 }

/-! ### Additional concrete fixtures -/

/-- Presenter state as seen by a second sync request arriving while a sync
is already in flight. -/
def pSyncing : PState :=
  { ui := { ui0 with isSyncing := true }
    habits := [habitA]
    completions := [comp1]
    cache := some cacheA }

/-- A previously computed period-statistics value. -/
def ps0 : PeriodStats :=
  { rangeLabel := "w"
    completionRate := 1
    bestDay := "Mon"
    completions := 3
    streak := 1
    longestStreak := 2 }

/-- Presenter state holding a previously computed good view and no open
cache. -/
def pPrev : PState :=
  { ui := { ui0 with
      periodStats := some ps0
      trends := [{ habitId := "h1", rate := 1, delta := 0 }]
      heatmap := [{ date := 0, intensity := 1 }] }
    habits := [habitA]
    completions := [comp1]
    cache := none }

/-- Presenter state of user B with user A data in the open cache. -/
def pB : PState := { ui := ui0, habits := [habitB], completions := [], cache := some cacheA }

/-- Environment: a successful fetch returning an empty habit list. -/
def envOkEmpty : SyncEnv :=
  { fetchHabitsR := Except.ok []
    fetchCompletionsR := fun _ => Except.ok []
    mirrorOk := true
    now := 2000
    historyDays := 90 }

/-! ### Helper lemmas -/



/-- Claim C7: on an empty in-memory habit list, `computeStatistics`
returns `none` (no throw — it is a total function) and publishes zeroed
aggregates: `periodStats = none`, `trends = []`, `heatmap = []`,
`snapshot = none`, `insights = none`, `activity = []`. -/
theorem computeStatistics_empty_zeroed (deps : StatsDeps)
    (completions : List HabitCompletion) (scope : Scope) (date : Int)
    (s : StatisticsState) :
    computeStatistics deps [] completions scope date s =
      (none,
        { s with
          isLoading := false
          periodStats := none
          trends := []
          heatmap := []
          snapshot := none
          insights := none
          activity := [] }) := by
  simp [computeStatistics]

/-- Claim C8: `computeStatistics` is deterministic — its computed value
depends only on the (habits, completions, scope, date) tuple, not on the
previously published state — and idempotent: running it again on the
state it just published returns the same value and leaves the published
state fixed. -/
theorem computeStatistics_deterministic_idempotent (deps : StatsDeps)
    (habits : List Habit) (completions : List HabitCompletion) (scope : Scope)
    (date : Int) (s t : StatisticsState) :
    (computeStatistics deps habits completions scope date s).fst
      = (computeStatistics deps habits completions scope date t).fst ∧
    computeStatistics deps habits completions scope date
        (computeStatistics deps habits completions scope date s).snd
      = computeStatistics deps habits completions scope date s := by
  cases habits with
  | nil => exact ⟨rfl, rfl⟩
  | cons h hs => exact ⟨rfl, rfl⟩

/-- Claim C6: `setScope` and `setSelectedDate` make no Remote Data
Gateway call and no Local Store call (their event trace is empty) and
leave the in-memory habits, completions and the cache unchanged; they
only recompute the published statistics. -/
theorem setScope_setSelectedDate_frame (deps : StatsDeps) (scope : Scope) (date : Int)
    (p : PState) :
    (setScope deps scope p).snd = [] ∧
    (setScope deps scope p).fst.habits = p.habits ∧
    (setScope deps scope p).fst.completions = p.completions ∧
    (setScope deps scope p).fst.cache = p.cache ∧
    (setSelectedDate deps date p).snd = [] ∧
    (setSelectedDate deps date p).fst.habits = p.habits ∧
    (setSelectedDate deps date p).fst.completions = p.completions ∧
    (setSelectedDate deps date p).fst.cache = p.cache :=
  ⟨rfl, rfl, rfl, rfl, rfl, rfl, rfl, rfl⟩


theorem isSome_ite_map (c : Prop) [Decidable c] (f : CacheState → CacheState)
    (o : Option CacheState) :
    (if c then Option.map f o else o).isSome = o.isSome := by
  split <;> simp


theorem list_mem_ite {α : Type} (a : α) (c : Prop) [Decidable c] (l1 l2 : List α) :
    (a ∈ (if c then l1 else l2)) ↔ (if c then a ∈ l1 else a ∈ l2) := by
  split <;> exact Iff.rfl

theorem list_find?_ite {α : Type} (p : α → Bool) (c : Prop) [Decidable c]
    (l1 l2 : List α) :
    (if c then l1 else l2).find? p = (if c then l1.find? p else l2.find? p) := by
  split <;> rfl

/-- Every `sync` invocation performs the remote habit fetch,
unconditionally — there is no guard consulting `isSyncing`. -/
theorem sync_fetches_mem (deps : StatsDeps) (env : SyncEnv) (p : PState) :
    Event.fetchHabitsEv ∈ (sync deps env p).snd := by
  rcases hfh : env.fetchHabitsR with e | fresh
  · by_cases hfb : fallbackAllowed p.cache.isSome (p.cache.bind CacheState.metadata) = true
    · simp [sync, syncCore, hfh, hfb, finishSync]
    · simp only [Bool.not_eq_true] at hfb
      simp [sync, syncCore, hfh, hfb, syncCatch]
  · simp only [sync, hfh, syncCore]
    rcases hfc : env.fetchCompletionsR (syncFetchFrom deps env p) with e2 | cs
    · by_cases hfb : fallbackAllowed p.cache.isSome (p.cache.bind CacheState.metadata) = true
      · simp [hfc, syncFetchOk, isSome_ite_map, hfb, finishSync]
      · simp only [Bool.not_eq_true] at hfb
        simp [hfc, syncFetchOk, isSome_ite_map, hfb, syncCatch]
    · simp [hfc, syncFetchOk, finishSync]

/-- Claim C4 (amended): every sync terminates with `isSyncing = false`;
`lastSync` is stamped with the completion time on the fresh-fetch and
offline-fallback outcomes, but on total failure the outer catch leaves
`lastSync` unchanged. -/
theorem sync_isSyncing_lastSync (deps : StatsDeps) (env : SyncEnv) (p : PState) :
    (sync deps env p).fst.ui.isSyncing = false ∧
    (sync deps env p).fst.ui.lastSync =
      (if syncTotalFailure deps env p then p.ui.lastSync else some env.now) := by
  rcases hfh : env.fetchHabitsR with e | fresh
  · by_cases hfb : fallbackAllowed p.cache.isSome (p.cache.bind CacheState.metadata) = true
    · simp [sync, syncCore, hfh, hfb, finishSync, syncTotalFailure]
    · simp only [Bool.not_eq_true] at hfb
      simp [sync, syncCore, hfh, hfb, syncCatch, syncTotalFailure]
  · rcases hfc : env.fetchCompletionsR (syncFetchFrom deps env p) with e2 | cs
    · by_cases hfb : fallbackAllowed p.cache.isSome (p.cache.bind CacheState.metadata) = true
      · simp [sync, syncCore, hfh, hfc, syncFetchOk, isSome_ite_map, hfb, finishSync, syncTotalFailure]
      · simp only [Bool.not_eq_true] at hfb
        simp [sync, syncCore, hfh, hfc, syncFetchOk, isSome_ite_map, hfb, syncCatch, syncTotalFailure]
    · simp [sync, syncCore, hfh, hfc, syncFetchOk, finishSync, syncTotalFailure]



/-- Claim C3 counterexample: a refresh request arriving while `isSyncing`
is true is not a silent no-op — it still performs the remote habit fetch
and changes the published state. -/
theorem sync_not_noop_when_syncing :
    pSyncing.ui.isSyncing = true ∧
    Event.fetchHabitsEv ∈ (refresh deps0 envOkB pSyncing).snd ∧
    (refresh deps0 envOkB pSyncing).fst ≠ pSyncing := by decide

/-- Claim C3 (amended): `sync` has no in-flight guard. Every `refresh`
performs its own remote fetch cycle — also a second one issued on the
state the first produced — so two refresh requests perform two fetch
cycles, not one. -/
theorem refresh_no_inflight_guard (deps : StatsDeps) (env1 env2 : SyncEnv)
    (p : PState) :
    Event.fetchHabitsEv ∈ (refresh deps env1 p).snd ∧
    Event.fetchHabitsEv ∈ (refresh deps env2 (refresh deps env1 p).fst).snd :=
  ⟨sync_fetches_mem deps env1 p, sync_fetches_mem deps env2 (refresh deps env1 p).fst⟩

theorem computeStatistics_snd_error (deps : StatsDeps) (habits : List Habit)
    (completions : List HabitCompletion) (scope : Scope) (date : Int)
    (s : StatisticsState) :
    (computeStatistics deps habits completions scope date s).snd.error = s.error := by
  cases habits with
  | nil => rfl
  | cons h t => rfl

theorem computeStatistics_snd_isOffline (deps : StatsDeps) (habits : List Habit)
    (completions : List HabitCompletion) (scope : Scope) (date : Int)
    (s : StatisticsState) :
    (computeStatistics deps habits completions scope date s).snd.isOffline = s.isOffline := by
  cases habits with
  | nil => rfl
  | cons h t => rfl

/-- Claim C5: a sync that fails with no usable data source publishes the
non-null user-facing error string and leaves every previously computed
statistics field (periodStats, trends, heatmap, snapshot, insights,
activity) unchanged. -/
theorem sync_failure_preserves_view (deps : StatsDeps) (env : SyncEnv) (p : PState)
    (h : syncTotalFailure deps env p = true) :
    (sync deps env p).fst.ui.error = some syncErrorMsg ∧
    (sync deps env p).fst.ui.periodStats = p.ui.periodStats ∧
    (sync deps env p).fst.ui.trends = p.ui.trends ∧
    (sync deps env p).fst.ui.heatmap = p.ui.heatmap ∧
    (sync deps env p).fst.ui.snapshot = p.ui.snapshot ∧
    (sync deps env p).fst.ui.insights = p.ui.insights ∧
    (sync deps env p).fst.ui.activity = p.ui.activity := by
  rcases hfh : env.fetchHabitsR with e | fresh
  · simp only [syncTotalFailure, hfh, Bool.not_eq_true'] at h
    simp [sync, syncCore, hfh, h, syncCatch]
  · rcases hfc : env.fetchCompletionsR (syncFetchFrom deps env p) with e2 | cs
    · simp only [syncTotalFailure, hfh, hfc, Bool.not_eq_true'] at h
      simp [sync, syncCore, hfh, hfc, syncFetchOk, isSome_ite_map, h, syncCatch]
    · simp [syncTotalFailure, hfh, hfc] at h

theorem sync_failure_preserves_view_witness :
    syncTotalFailure deps0 envFail pPrev = true ∧
    ((sync deps0 envFail pPrev).fst.ui.error = some syncErrorMsg ∧
     (sync deps0 envFail pPrev).fst.ui.periodStats = pPrev.ui.periodStats ∧
     (sync deps0 envFail pPrev).fst.ui.trends = pPrev.ui.trends ∧
     (sync deps0 envFail pPrev).fst.ui.heatmap = pPrev.ui.heatmap ∧
     (sync deps0 envFail pPrev).fst.ui.snapshot = pPrev.ui.snapshot ∧
     (sync deps0 envFail pPrev).fst.ui.insights = pPrev.ui.insights ∧
     (sync deps0 envFail pPrev).fst.ui.activity = pPrev.ui.activity) :=
  ⟨by decide, sync_failure_preserves_view deps0 envFail pPrev (by decide)⟩

/-- Claim C4 counterexample: a totally failing sync (fetch fails, no
usable cache) completes with `isSyncing = false` but does not set
`lastSync` to the completion time — it stays `none`. -/
theorem sync_total_failure_lastSync_counterexample :
    syncTotalFailure deps0 envFail pNoCache = true ∧
    (sync deps0 envFail pNoCache).fst.ui.isSyncing = false ∧
    envFail.now = 1000 ∧
    (sync deps0 envFail pNoCache).fst.ui.lastSync = none := by decide

/-- Claim C2: when the remote habit fetch fails, the offline-fallback
guard holds exactly when the cached metadata carries both a prior
habit-sync timestamp and an owning-user identifier; in that case the
engine serves the cached habits and completions with `isOffline = true`
and no error; otherwise the failure propagates (error published, cache
rows never read). -/
theorem sync_offline_fallback (deps : StatsDeps) (env : SyncEnv) (p : PState)
    (e : GatewayError) (hfh : env.fetchHabitsR = Except.error e)
    (hwf : optTruthy ((p.cache.bind CacheState.metadata).bind SyncMetadata.userId)
      = ((p.cache.bind CacheState.metadata).bind SyncMetadata.userId).isSome) :
    (fallbackAllowed p.cache.isSome (p.cache.bind CacheState.metadata)
      = (((p.cache.bind CacheState.metadata).bind SyncMetadata.lastHabitsSync).isSome
          && ((p.cache.bind CacheState.metadata).bind SyncMetadata.userId).isSome)) ∧
    (fallbackAllowed p.cache.isSome (p.cache.bind CacheState.metadata) = true →
      (sync deps env p).fst.ui.isOffline = true ∧
      (sync deps env p).fst.ui.error = none ∧
      (sync deps env p).fst.habits = (p.cache.map CacheState.habits).getD [] ∧
      (sync deps env p).fst.completions = (p.cache.map CacheState.completions).getD []) ∧
    (fallbackAllowed p.cache.isSome (p.cache.bind CacheState.metadata) = false →
      (sync deps env p).fst.ui.error = some syncErrorMsg ∧
      (sync deps env p).fst.habits = p.habits ∧
      (sync deps env p).fst.completions = p.completions ∧
      Event.getHabitsEv ∉ (sync deps env p).snd ∧
      Event.getCompletionsEv ∉ (sync deps env p).snd) := by
  refine ⟨?_, ?_, ?_⟩
  · rcases hpc : p.cache with _ | c
    · simp [fallbackAllowed, hpc]
    · simp [hpc] at hwf
      simp [fallbackAllowed, hpc, hwf]
  · intro hfb
    refine ⟨?_, ?_, ?_, ?_⟩ <;>
      simp [sync, syncCore, hfh, hfb, finishSync,
        computeStatistics_snd_isOffline, computeStatistics_snd_error]
  · intro hfb
    refine ⟨?_, ?_, ?_, ?_, ?_⟩ <;>
      simp [sync, syncCore, hfh, hfb, syncCatch, list_mem_ite]

theorem sync_offline_fallback_witness :
    envFail.fetchHabitsR = Except.error GatewayError.unreachable ∧
    optTruthy ((pB.cache.bind CacheState.metadata).bind SyncMetadata.userId)
      = ((pB.cache.bind CacheState.metadata).bind SyncMetadata.userId).isSome ∧
    ((fallbackAllowed pB.cache.isSome (pB.cache.bind CacheState.metadata)
      = (((pB.cache.bind CacheState.metadata).bind SyncMetadata.lastHabitsSync).isSome
          && ((pB.cache.bind CacheState.metadata).bind SyncMetadata.userId).isSome)) ∧
    (fallbackAllowed pB.cache.isSome (pB.cache.bind CacheState.metadata) = true →
      (sync deps0 envFail pB).fst.ui.isOffline = true ∧
      (sync deps0 envFail pB).fst.ui.error = none ∧
      (sync deps0 envFail pB).fst.habits = (pB.cache.map CacheState.habits).getD [] ∧
      (sync deps0 envFail pB).fst.completions = (pB.cache.map CacheState.completions).getD []) ∧
    (fallbackAllowed pB.cache.isSome (pB.cache.bind CacheState.metadata) = false →
      (sync deps0 envFail pB).fst.ui.error = some syncErrorMsg ∧
      (sync deps0 envFail pB).fst.habits = pB.habits ∧
      (sync deps0 envFail pB).fst.completions = pB.completions ∧
      Event.getHabitsEv ∉ (sync deps0 envFail pB).snd ∧
      Event.getCompletionsEv ∉ (sync deps0 envFail pB).snd)) :=
  ⟨rfl, by decide,
    sync_offline_fallback deps0 envFail pB GatewayError.unreachable rfl (by decide)⟩

theorem currentUserIdOf_isNone (fresh : List Habit) :
    (currentUserIdOf fresh).isNone = fresh.isEmpty := by
  cases fresh <;> rfl

theorem clearDecision_eq_specClearCond (md : Option SyncMetadata) (fresh : List Habit)
    (h1 : optTruthy (md.bind SyncMetadata.userId) = (md.bind SyncMetadata.userId).isSome)
    (h2 : optTruthy (currentUserIdOf fresh) = (currentUserIdOf fresh).isSome) :
    clearDecision md (currentUserIdOf fresh) = specClearCond md fresh := by
  simp only [clearDecision, specClearCond, h1, h2, Option.bnot_isSome,
    ← currentUserIdOf_isNone]

theorem sync_ok_clear_first (deps : StatsDeps) (env : SyncEnv) (p : PState)
    (fresh : List Habit) (hfh : env.fetchHabitsR = Except.ok fresh)
    (hdc : (p.cache.isSome && clearDecision (p.cache.bind CacheState.metadata)
      (currentUserIdOf fresh)) = true) :
    firstClearOrWrite (sync deps env p).snd = some Event.clearAllEv := by
  have hcs : p.cache.isSome = true := by
    cases hb : p.cache.isSome
    · simp [hb] at hdc
    · rfl
  obtain ⟨c, hpc⟩ := Option.isSome_iff_exists.mp hcs
  have hcl : clearDecision c.metadata (currentUserIdOf fresh) = true := by
    rw [hpc] at hdc
    simpa using hdc
  rcases hfc : env.fetchCompletionsR (syncFetchFrom deps env p) with e2 | cs
  · by_cases hfb : fallbackAllowed true c.metadata = true
    · simp [sync, syncCore, hfh, hfc, syncFetchOk, hpc, hcl, hfb, firstClearOrWrite,
        finishSync, list_find?_ite, List.find?_cons_of_neg, List.find?_cons_of_pos,
        isClearOrWrite]
    · simp only [Bool.not_eq_true] at hfb
      simp [sync, syncCore, hfh, hfc, syncFetchOk, hpc, hcl, hfb, firstClearOrWrite,
        finishSync, list_find?_ite, List.find?_cons_of_neg, List.find?_cons_of_pos,
        isClearOrWrite]
  · simp [sync, syncCore, hfh, hfc, syncFetchOk, hpc, hcl, firstClearOrWrite,
      finishSync, list_find?_ite, List.find?_cons_of_neg, List.find?_cons_of_pos,
      isClearOrWrite]

theorem sync_ok_no_clear (deps : StatsDeps) (env : SyncEnv) (p : PState)
    (fresh : List Habit) (hfh : env.fetchHabitsR = Except.ok fresh)
    (hdc : (p.cache.isSome && clearDecision (p.cache.bind CacheState.metadata)
      (currentUserIdOf fresh)) = false) :
    Event.clearAllEv ∉ (sync deps env p).snd := by
  rcases hpc : p.cache with _ | c
  · rcases hfc : env.fetchCompletionsR (syncFetchFrom deps env p) with e2 | cs <;>
      simp [sync, syncCore, hfh, hfc, syncFetchOk, hpc, fallbackAllowed, finishSync,
        list_mem_ite]
  · have hcl : clearDecision c.metadata (currentUserIdOf fresh) = false := by
      rw [hpc] at hdc
      simpa using hdc
    rcases hfc : env.fetchCompletionsR (syncFetchFrom deps env p) with e2 | cs
    · by_cases hfb : fallbackAllowed true c.metadata = true
      · simp [sync, syncCore, hfh, hfc, syncFetchOk, hpc, hcl, hfb, finishSync,
          list_mem_ite]
      · simp only [Bool.not_eq_true] at hfb
        simp [sync, syncCore, hfh, hfc, syncFetchOk, hpc, hcl, hfb, finishSync,
          list_mem_ite]
    · simp [sync, syncCore, hfh, hfc, syncFetchOk, hpc, hcl, finishSync, list_mem_ite]

/-- Claim C1: when `fetchHabits` succeeds and a local cache is open, the
engine invokes `clearAll` before writing any new data into the Local
Store if and only if the cache-trust condition of the spec holds: prior
sync recorded without an owning-user tag, both owning-user identifiers
present and different, or an empty fetched habit list with a prior sync
recorded. Stated over inputs whose user identifiers are not the empty
string (an empty string is not an identifier). -/
theorem sync_cache_trust_iff (deps : StatsDeps) (env : SyncEnv) (p : PState)
    (fresh : List Habit) (c : CacheState)
    (hfh : env.fetchHabitsR = Except.ok fresh)
    (hpc : p.cache = some c)
    (hwf1 : optTruthy (c.metadata.bind SyncMetadata.userId)
      = (c.metadata.bind SyncMetadata.userId).isSome)
    (hwf2 : optTruthy (currentUserIdOf fresh) = (currentUserIdOf fresh).isSome) :
    (specClearCond c.metadata fresh = true →
      firstClearOrWrite (sync deps env p).snd = some Event.clearAllEv) ∧
    (specClearCond c.metadata fresh = false →
      Event.clearAllEv ∉ (sync deps env p).snd) := by
  have hmd : p.cache.bind CacheState.metadata = c.metadata := by simp [hpc]
  have hcd : clearDecision (p.cache.bind CacheState.metadata) (currentUserIdOf fresh)
      = specClearCond c.metadata fresh := by
    rw [hmd]
    exact clearDecision_eq_specClearCond c.metadata fresh hwf1 hwf2
  constructor
  · intro hsc
    apply sync_ok_clear_first deps env p fresh hfh
    rw [hcd, hsc, hpc]
    simp
  · intro hsc
    apply sync_ok_no_clear deps env p fresh hfh
    rw [hcd, hsc]
    simp

theorem sync_cache_trust_iff_witness :
    envOkB.fetchHabitsR = Except.ok [habitB] ∧
    p0.cache = some cacheA ∧
    optTruthy (cacheA.metadata.bind SyncMetadata.userId)
      = (cacheA.metadata.bind SyncMetadata.userId).isSome ∧
    optTruthy (currentUserIdOf [habitB]) = (currentUserIdOf [habitB]).isSome ∧
    ((specClearCond cacheA.metadata [habitB] = true →
      firstClearOrWrite (sync deps0 envOkB p0).snd = some Event.clearAllEv) ∧
     (specClearCond cacheA.metadata [habitB] = false →
      Event.clearAllEv ∉ (sync deps0 envOkB p0).snd)) :=
  ⟨rfl, rfl, by decide, by decide,
    sync_cache_trust_iff deps0 envOkB p0 [habitB] cacheA rfl rfl (by decide) (by decide)⟩

theorem sync_fst_mirror_indep (deps : StatsDeps) (env : SyncEnv) (p : PState)
    (b : Bool) :
    (sync deps { env with mirrorOk := b } p).fst = (sync deps env p).fst := by
  obtain ⟨fhR, fcR, mOk, now, hd⟩ := env
  rcases hfh : fhR with e | fresh
  · by_cases hfb : fallbackAllowed p.cache.isSome (p.cache.bind CacheState.metadata)
        = true
    · simp [sync, syncCore, hfh, hfb, finishSync]
    · simp only [Bool.not_eq_true] at hfb
      simp [sync, syncCore, hfh, hfb, syncCatch]
  · rcases hfc : fcR (getFetchFromDate now hd
        (deps.getHeatmapRange p.ui.scope p.ui.selectedDate)) with e2 | cs
    · by_cases hfb : fallbackAllowed p.cache.isSome (p.cache.bind CacheState.metadata)
          = true
      · simp [sync, syncCore, syncFetchFrom, hfh, hfc, syncFetchOk, isSome_ite_map,
          hfb, finishSync]
      · simp only [Bool.not_eq_true] at hfb
        simp [sync, syncCore, syncFetchFrom, hfh, hfc, syncFetchOk, isSome_ite_map,
          hfb, syncCatch]
    · simp [sync, syncCore, syncFetchFrom, hfh, hfc, syncFetchOk, finishSync]

/-- Claim C9: after a successful statistics computation, sync mirrors
the computed result to the server-side cache stamped valid until exactly
one hour past the current time, and the outcome of the mirror call has
no effect on the resulting presenter state. -/
theorem sync_mirror_best_effort (deps : StatsDeps) (env : SyncEnv) (p : PState)
    (fresh : List Habit) (cs : List HabitCompletion)
    (hfh : env.fetchHabitsR = Except.ok fresh)
    (hfc : env.fetchCompletionsR (syncFetchFrom deps env p) = Except.ok cs)
    (hne : fresh ≠ []) :
    Event.setServerCacheEv p.ui.scope (deps.getDateKey p.ui.scope p.ui.selectedDate)
        (env.now + hourMs) env.mirrorOk ∈ (sync deps env p).snd ∧
    (sync deps { env with mirrorOk := true } p).fst
      = (sync deps { env with mirrorOk := false } p).fst := by
  constructor
  · rcases fresh with _ | ⟨h, t⟩
    · exact absurd rfl hne
    · simp [sync, syncCore, hfh, hfc, syncFetchOk, finishSync, computeStatistics,
        list_mem_ite]
  · rw [sync_fst_mirror_indep deps env p true, sync_fst_mirror_indep deps env p false]

theorem sync_mirror_best_effort_witness :
    envOkB.fetchHabitsR = Except.ok [habitB] ∧
    envOkB.fetchCompletionsR (syncFetchFrom deps0 envOkB p0) = Except.ok [comp1] ∧
    [habitB] ≠ ([] : List Habit) ∧
    (Event.setServerCacheEv p0.ui.scope (deps0.getDateKey p0.ui.scope p0.ui.selectedDate)
        (envOkB.now + hourMs) envOkB.mirrorOk ∈ (sync deps0 envOkB p0).snd ∧
     (sync deps0 { envOkB with mirrorOk := true } p0).fst
       = (sync deps0 { envOkB with mirrorOk := false } p0).fst) :=
  ⟨rfl, rfl, by decide,
    sync_mirror_best_effort deps0 envOkB p0 [habitB] [comp1] rfl rfl (by decide)⟩

theorem sync_ok_cache_metadata (deps : StatsDeps) (env : SyncEnv) (p : PState)
    (fresh : List Habit) (cs : List HabitCompletion)
    (hfh : env.fetchHabitsR = Except.ok fresh)
    (hfc : env.fetchCompletionsR (syncFetchFrom deps env p) = Except.ok cs) :
    (sync deps env p).fst.cache.bind CacheState.metadata
      = p.cache.map (fun _ =>
          ({ lastHabitsSync := some env.now
             lastCompletionsSync := some env.now
             version := 1
             userId := currentUserIdOf fresh } : SyncMetadata)) := by
  rcases hpc : p.cache with _ | c <;>
    simp [sync, syncCore, hfh, hfc, syncFetchOk, finishSync, hpc] <;>
    split <;>
    simp

theorem sync_ok_cache_isSome (deps : StatsDeps) (env : SyncEnv) (p : PState)
    (fresh : List Habit) (cs : List HabitCompletion)
    (hfh : env.fetchHabitsR = Except.ok fresh)
    (hfc : env.fetchCompletionsR (syncFetchFrom deps env p) = Except.ok cs) :
    (sync deps env p).fst.cache.isSome = p.cache.isSome := by
  rcases hpc : p.cache with _ | c <;>
    simp [sync, syncCore, hfh, hfc, syncFetchOk, finishSync, hpc] <;>
    split <;>
    simp

theorem sync_err_no_fallback (deps : StatsDeps) (env : SyncEnv) (p : PState)
    (e : GatewayError) (hfh : env.fetchHabitsR = Except.error e)
    (hfb : fallbackAllowed p.cache.isSome (p.cache.bind CacheState.metadata) = false) :
    (sync deps env p).fst.ui.error = some syncErrorMsg ∧
    Event.getHabitsEv ∉ (sync deps env p).snd := by
  simp [sync, syncCore, hfh, hfb, syncCatch, list_mem_ite]

/-- Claim C10: the owning-user identifier written into cache metadata is
the userId of the first fetched habit, so a successful sync of an
empty-habit account stores metadata with `userId = none`; afterwards a
failed fetch never falls back to this cache (the failure propagates and
no cache rows are read) and a subsequent successful sync invokes
`clearAll` before writing. -/
theorem sync_empty_account_metadata (deps : StatsDeps) (env1 : SyncEnv) (p : PState)
    (c : CacheState) (cs1 : List HabitCompletion)
    (hc : p.cache = some c)
    (h1 : env1.fetchHabitsR = Except.ok [])
    (h2 : env1.fetchCompletionsR (syncFetchFrom deps env1 p) = Except.ok cs1) :
    (∀ (envA : SyncEnv) (freshA : List Habit) (csA : List HabitCompletion),
      envA.fetchHabitsR = Except.ok freshA →
      envA.fetchCompletionsR (syncFetchFrom deps envA p) = Except.ok csA →
      ((sync deps envA p).fst.cache.bind CacheState.metadata).bind SyncMetadata.userId
        = currentUserIdOf freshA) ∧
    ((sync deps env1 p).fst.cache.bind CacheState.metadata
      = some { lastHabitsSync := some env1.now
               lastCompletionsSync := some env1.now
               version := 1
               userId := none }) ∧
    (∀ (env2 : SyncEnv) (e : GatewayError),
      env2.fetchHabitsR = Except.error e →
      (sync deps env2 (sync deps env1 p).fst).fst.ui.error = some syncErrorMsg ∧
      Event.getHabitsEv ∉ (sync deps env2 (sync deps env1 p).fst).snd) ∧
    (∀ (env3 : SyncEnv) (fresh3 : List Habit) (cs3 : List HabitCompletion),
      env3.fetchHabitsR = Except.ok fresh3 →
      env3.fetchCompletionsR (syncFetchFrom deps env3 (sync deps env1 p).fst)
        = Except.ok cs3 →
      firstClearOrWrite (sync deps env3 (sync deps env1 p).fst).snd
        = some Event.clearAllEv) := by
  have hmeta := sync_ok_cache_metadata deps env1 p [] cs1 h1 h2
  rw [hc] at hmeta
  simp only [Option.map_some', currentUserIdOf] at hmeta
  have hsome := sync_ok_cache_isSome deps env1 p [] cs1 h1 h2
  rw [hc] at hsome
  simp only [Option.isSome_some] at hsome
  refine ⟨?_, ?_, ?_, ?_⟩
  · intro envA freshA csA hA1 hA2
    rw [sync_ok_cache_metadata deps envA p freshA csA hA1 hA2, hc]
    rfl
  · exact hmeta
  · intro env2 e he
    apply sync_err_no_fallback deps env2 _ e he
    rw [hmeta]
    simp [fallbackAllowed, optTruthy]
  · intro env3 fresh3 cs3 h31 h32
    apply sync_ok_clear_first deps env3 _ fresh3 h31
    rw [hmeta, hsome]
    simp [clearDecision, optTruthy]

theorem sync_empty_account_metadata_witness :
    p0.cache = some cacheA ∧
    envOkEmpty.fetchHabitsR = Except.ok [] ∧
    envOkEmpty.fetchCompletionsR (syncFetchFrom deps0 envOkEmpty p0) = Except.ok [] ∧
    ((∀ (envA : SyncEnv) (freshA : List Habit) (csA : List HabitCompletion),
      envA.fetchHabitsR = Except.ok freshA →
      envA.fetchCompletionsR (syncFetchFrom deps0 envA p0) = Except.ok csA →
      ((sync deps0 envA p0).fst.cache.bind CacheState.metadata).bind SyncMetadata.userId
        = currentUserIdOf freshA) ∧
    ((sync deps0 envOkEmpty p0).fst.cache.bind CacheState.metadata
      = some { lastHabitsSync := some envOkEmpty.now
               lastCompletionsSync := some envOkEmpty.now
               version := 1
               userId := none }) ∧
    (∀ (env2 : SyncEnv) (e : GatewayError),
      env2.fetchHabitsR = Except.error e →
      (sync deps0 env2 (sync deps0 envOkEmpty p0).fst).fst.ui.error = some syncErrorMsg ∧
      Event.getHabitsEv ∉ (sync deps0 env2 (sync deps0 envOkEmpty p0).fst).snd) ∧
    (∀ (env3 : SyncEnv) (fresh3 : List Habit) (cs3 : List HabitCompletion),
      env3.fetchHabitsR = Except.ok fresh3 →
      env3.fetchCompletionsR (syncFetchFrom deps0 env3 (sync deps0 envOkEmpty p0).fst)
        = Except.ok cs3 →
      firstClearOrWrite (sync deps0 env3 (sync deps0 envOkEmpty p0).fst).snd
        = some Event.clearAllEv)) :=
  ⟨rfl, rfl, rfl,
    sync_empty_account_metadata deps0 envOkEmpty p0 cacheA [] rfl rfl rfl⟩

end UHabit
